import Mathlib

/-!
Verification development for a small single-store inventory tracker
(items, parties, append-only stock movements, derived stock positions).

The SQLite-backed Python program is shallowly embedded here:
SQLite REAL columns are modelled as exact rationals, TEXT columns as
String, NULLable columns as Option, and each table as a list of rows
inside a DB state carrying the auto-increment counters.
-/

namespace AliStock

/-- Row of the items table (schema in init_db). -/
structure Item where
  id : Nat
  name : String
  category : Option String
  brand : Option String
  unit : String
  cost_price : ℚ
  sale_price : ℚ
  active : Int
  notes : Option String
  deriving DecidableEq, Repr

/-- Row of the parties table (schema in init_db); type is TEXT with a
CHECK constraint restricting it to supplier or customer. -/
structure Party where
  id : Nat
  type : String
  name : String
  phone : Option String
  address : Option String
  deriving DecidableEq, Repr

/-- Row of the transactions table (schema in init_db); txn_type is TEXT
with a CHECK constraint, created_at defaults to CURRENT_TIMESTAMP. -/
structure Txn where
  id : Nat
  item_id : Nat
  txn_type : String
  qty : ℚ
  unit_price : Option ℚ
  party_id : Option Nat
  ref_no : Option String
  txn_date : String
  remarks : Option String
  created_at : String
  deriving DecidableEq, Repr

/-- The whole database: the three tables plus the AUTOINCREMENT
counters for their primary keys. -/
structure DB where
  items : List Item
  parties : List Party
  transactions : List Txn
  nextItemId : Nat
  nextPartyId : Nat
  nextTxnId : Nat
  deriving DecidableEq, Repr

/-- Transactions of one item: the rows of the transactions table whose
item_id matches (the join condition t.item_id = i.id). -/
def txnsFor (db : DB) (iid : Nat) : List Txn :=
  db.transactions.filter (fun t => t.item_id == iid)

/-- The LEFT JOIN of one item row with its transactions: when the item
has no transaction the join still produces one row, with every
transaction column NULL (modelled as none). -/
def leftJoinTxns (db : DB) (iid : Nat) : List (Option Txn) :=
  match txnsFor db iid with
  | [] => [none]
  | ts => ts.map some

/-- The CASE expression of get_inventory_df on one (possibly NULL)
joined transaction: IN counts +qty, OUT counts -qty, ADJUST counts
+qty, anything else (including the NULL row of the LEFT JOIN, whose
txn_type matches no WHEN branch) counts 0. -/
def caseSigned (t : Option Txn) : ℚ :=
  match t with
  | none => 0
  | some t =>
      if t.txn_type = "IN" then t.qty
      else if t.txn_type = "OUT" then -t.qty
      else if t.txn_type = "ADJUST" then t.qty
      else 0

/-- stock_qty of one item as get_inventory_df computes it:
COALESCE(SUM(CASE ...), 0) over the LEFT JOIN rows of the item. The
CASE is never NULL, so the SUM of the joined rows is the value (with
the empty-group case impossible: the LEFT JOIN yields at least one
row per item). -/
def sqlStockQty (db : DB) (iid : Nat) : ℚ :=
  ((leftJoinTxns db iid).map caseSigned).sum

/-- Rounding to two decimal places, as applied to the derived monetary
value (pandas .round(2); float rounding is modelled as exact rational
rounding of 100x). -/
def round2 (x : ℚ) : ℚ := (round (x * 100) : ℚ) / 100

/-- One output row of get_inventory_df. The stock_value_cost field is
only a real column of the output when the table is nonempty; the
column list of InvTable records which columns exist. -/
structure InvRow where
  id : Nat
  name : String
  category : Option String
  brand : Option String
  unit : String
  cost_price : ℚ
  sale_price : ℚ
  stock_qty : ℚ
  stock_value_cost : ℚ
  deriving DecidableEq, Repr

/-- A dataframe result: its column names in order, and its rows. -/
structure InvTable where
  columns : List String
  rows : List InvRow
  deriving DecidableEq, Repr

/-- The columns the SELECT of get_inventory_df produces. -/
def invBaseColumns : List String :=
  ["id", "name", "category", "brand", "unit", "cost_price", "sale_price", "stock_qty"]

/-- The active items, in table order (WHERE i.active=1). -/
def activeItems (db : DB) : List Item :=
  db.items.filter (fun i => i.active == 1)

/-- Insert one item into a list sorted by name (helper for ORDER BY
i.name). -/
def insertByName (i : Item) : List Item → List Item
  | [] => [i]
  | j :: js => if j.name < i.name then j :: insertByName i js else i :: j :: js

/-- Sort items by name ascending (ORDER BY i.name). -/
def sortByName (l : List Item) : List Item := l.foldr insertByName []

/-- The output row of get_inventory_df for one item. -/
def mkInvRow (db : DB) (i : Item) : InvRow :=
  { id := i.id, name := i.name, category := i.category, brand := i.brand,
    unit := i.unit, cost_price := i.cost_price, sale_price := i.sale_price,
    stock_qty := sqlStockQty db i.id,
    stock_value_cost := round2 (sqlStockQty db i.id * i.cost_price) }

/-- get_inventory_df: one row per active item (GROUP BY i.id), ordered
by name, with stock_qty the COALESCEd signed sum; the stock_value_cost
column is added only when the dataframe is nonempty (the guard
if not df.empty in the Python code). -/
def get_inventory_df (db : DB) : InvTable :=
  let rows := (sortByName (activeItems db)).map (mkInvRow db)
  { columns :=
      if rows.isEmpty then invBaseColumns
      else invBaseColumns ++ ["stock_value_cost"],
    rows := rows }

/-- Python's str.strip: remove leading and trailing whitespace. -/
def pyStrip (s : String) : String :=
  ⟨((s.data.dropWhile Char.isWhitespace).reverse.dropWhile
      Char.isWhitespace).reverse⟩

/-- upsert_party: returns None when the trimmed name is blank;
otherwise looks up the first party of the given type with the exact
trimmed name and returns its id, and only when no such party exists
inserts a new row with the supplied phone/address. Returns the party
id (if any) together with the database after the call. -/
def upsert_party (db : DB) (party_type nm : String)
    (phone address : Option String) : Option Nat × DB :=
  if pyStrip nm = "" then (none, db)
  else
    match db.parties.find?
        (fun p => p.type == party_type && p.name == pyStrip nm) with
    | some p => (some p.id, db)
    | none =>
        let pid := db.nextPartyId
        (some pid,
         { db with
             parties := db.parties ++
               [{ id := pid, type := party_type, name := pyStrip nm,
                  phone := phone, address := address }],
             nextPartyId := pid + 1 })

/-- The errors an append can raise: the ValueError that record_txn
itself raises on non-positive quantity, and the integrity errors the
store raises from its CHECK and FOREIGN KEY constraints. -/
inductive TxnError where
  | validationError (msg : String)
  | checkViolation
  | fkViolation
  deriving DecidableEq, Repr

/-- The store's INSERT into transactions: enforces the CHECK
constraint on txn_type and the foreign keys on item_id and party_id
(PRAGMA foreign_keys = ON); on success appends the row and bumps the
id counter. -/
def insertTxnStore (db : DB) (t : Txn) : Except TxnError DB :=
  if t.txn_type = "IN" ∨ t.txn_type = "OUT" ∨ t.txn_type = "ADJUST" then
    if db.items.any (fun i => i.id == t.item_id) then
      match t.party_id with
      | some pid =>
          if db.parties.any (fun p => p.id == pid) then
            Except.ok { db with transactions := db.transactions ++ [t],
                                nextTxnId := db.nextTxnId + 1 }
          else Except.error TxnError.fkViolation
      | none =>
          Except.ok { db with transactions := db.transactions ++ [t],
                              nextTxnId := db.nextTxnId + 1 }
    else Except.error TxnError.fkViolation
  else Except.error TxnError.checkViolation

/-- record_txn: raises ValueError when qty <= 0, before touching the
store; otherwise inserts one transaction row, defaulting txn_date to
today and created_at to the current timestamp (both passed in
explicitly here since the embedding is pure). -/
def record_txn (db : DB) (item_id : Nat) (txn_type : String) (qty : ℚ)
    (unit_price : Option ℚ) (party_id : Option Nat) (ref_no : Option String)
    (txn_date : Option String) (remarks : Option String)
    (today now : String) : Except TxnError DB :=
  if qty ≤ 0 then Except.error (TxnError.validationError "Qty must be > 0")
  else
    insertTxnStore db
      { id := db.nextTxnId, item_id := item_id, txn_type := txn_type,
        qty := qty, unit_price := unit_price, party_id := party_id,
        ref_no := ref_no, txn_date := txn_date.getD today,
        remarks := remarks, created_at := now }

/-- The database as the caller sees it after record_txn: unchanged
when the call raised (a raise before or during the INSERT leaves the
store as it was), the new state on success. -/
def record_txn_state (db : DB) (item_id : Nat) (txn_type : String) (qty : ℚ)
    (unit_price : Option ℚ) (party_id : Option Nat) (ref_no : Option String)
    (txn_date : Option String) (remarks : Option String)
    (today now : String) : DB :=
  match record_txn db item_id txn_type qty unit_price party_id ref_no
      txn_date remarks today now with
  | Except.ok db2 => db2
  | Except.error _ => db

/-- update_item_basic: UPDATE items SET cost_price = COALESCE(?,
cost_price), sale_price = COALESCE(?, sale_price) WHERE id = item_id.
A None argument keeps the previous value. -/
def update_item_basic (db : DB) (item_id : Nat)
    (cost_price sale_price : Option ℚ) : DB :=
  { db with
      items := db.items.map (fun i =>
        if i.id == item_id then
          { i with cost_price := cost_price.getD i.cost_price,
                   sale_price := sale_price.getD i.sale_price }
        else i) }

/-- curr_stock of the Stock OUT tab: the stock_qty of the inventory
row with the given id, 0 when the id has no row. -/
def curr_stock (db : DB) (iid : Nat) : ℚ :=
  match (get_inventory_df db).rows.find? (fun r => r.id == iid) with
  | some r => r.stock_qty
  | none => 0

/-- What a form submission produces for the operator: an error banner,
a success banner, or an uncaught exception from a lower layer. -/
inductive SubmitOutcome where
  | uiError (msg : String)
  | uiSuccess (msg : String)
  | raised (e : TxnError)
  deriving DecidableEq, Repr

/-- The Stock OUT submit handler: computes the available stock of the
selected item from the inventory view, blocks with an error banner
when the requested qty exceeds it, and otherwise resolves the customer
party and appends an OUT movement. -/
def stock_out_submit (db : DB) (item_id : Nat) (qty unit_price : ℚ)
    (customer : String) (ref_no : Option String) (txn_date : String)
    (remarks : Option String) (now : String) : SubmitOutcome × DB :=
  let avail := curr_stock db item_id
  if qty > avail then (SubmitOutcome.uiError "Not enough stock available.", db)
  else
    let pr := upsert_party db "customer" customer none none
    match record_txn pr.2 item_id "OUT" qty (some unit_price) pr.1 ref_no
        (some txn_date) remarks txn_date now with
    | Except.ok db2 => (SubmitOutcome.uiSuccess "Stock OUT recorded.", db2)
    | Except.error e => (SubmitOutcome.raised e, pr.2)

/-- The rows feeding the recent-transactions listing: the JOIN of
transactions with items on i.id = t.item_id keeps exactly the
transactions whose item exists (projection to the displayed columns
happens after ordering and is irrelevant to the ordering claims). -/
def joinedTxns (db : DB) : List Txn :=
  db.transactions.filter (fun t => db.items.any (fun i => i.id == t.item_id))

/-- A list is ordered by created_at descending. -/
def createdDescOrdered (l : List Txn) : Prop :=
  l.Pairwise (fun a b => b.created_at ≤ a.created_at)

/-- The possible results of the recent-transactions query
(ORDER BY t.created_at DESC LIMIT 200): SQL fixes only the created_at
ordering, so any permutation of the joined rows that is sorted by
created_at descending may be the one the engine produces, and the
output is its first 200 rows. -/
def recentTxAdmissible (db : DB) (out : List Txn) : Prop :=
  ∃ s : List Txn, s.Perm (joinedTxns db) ∧ createdDescOrdered s ∧
    out = s.take 200

/-- The ordering the spec claims for the recent-transactions listing:
created_at descending with ties broken by id ascending. -/
def claimedRecentOrder (l : List Txn) : Prop :=
  l.Pairwise (fun a b =>
    b.created_at < a.created_at ∨ (a.created_at = b.created_at ∧ a.id < b.id))

/-- Sum of the stored quantities of one item's transactions of one
type (a Σ of the spec's formula). -/
def sumQty (l : List Txn) (ty : String) : ℚ :=
  ((l.filter (fun t => t.txn_type == ty)).map Txn.qty).sum

/-- The stock quantity as the specification writes it:
Σ(IN.qty) − Σ(OUT.qty) + Σ(ADJUST.qty) over the item's transactions. -/
def specStockQty (db : DB) (iid : Nat) : ℚ :=
  sumQty (txnsFor db iid) "IN" - sumQty (txnsFor db iid) "OUT"
    + sumQty (txnsFor db iid) "ADJUST"

theorem sumQty_cons (t : Txn) (l : List Txn) (ty : String) :
    sumQty (t :: l) ty
      = (if t.txn_type = ty then t.qty else 0) + sumQty l ty := by
  by_cases h : t.txn_type = ty <;> simp [sumQty, List.filter_cons, h]

theorem sum_caseSigned (l : List Txn) :
    (l.map (fun t => caseSigned (some t))).sum
      = sumQty l "IN" - sumQty l "OUT" + sumQty l "ADJUST" := by
  induction l with
  | nil => simp [sumQty]
  | cons t l ih =>
      rw [List.map_cons, List.sum_cons, ih, sumQty_cons, sumQty_cons,
        sumQty_cons]
      by_cases hin : t.txn_type = "IN"
      · simp only [caseSigned, hin, String.reduceEq, if_true, if_false]
        norm_num
        ring
      · by_cases hout : t.txn_type = "OUT"
        · simp only [caseSigned, hin, hout, String.reduceEq, if_true,
            if_false]
          norm_num
          ring
        · by_cases hadj : t.txn_type = "ADJUST"
          · simp only [caseSigned, hin, hout, hadj, String.reduceEq,
              if_true, if_false]
            norm_num
            ring
          · simp only [caseSigned, hin, hout, hadj, if_false]
            norm_num

/-- The COALESCEd CASE sum of the SQL query equals the spec's signed
sum, for every database: the NULL row of the LEFT JOIN and any
transaction of an unknown type contribute 0 on the SQL side and are
absent from the spec's three Σ. -/
theorem sqlStockQty_eq_spec (db : DB) (iid : Nat) :
    sqlStockQty db iid = specStockQty db iid := by
  unfold sqlStockQty leftJoinTxns specStockQty
  cases h : txnsFor db iid with
  | nil => simp [h, caseSigned, sumQty]
  | cons t ts =>
      have := sum_caseSigned (t :: ts)
      simpa [h, List.map_map, Function.comp] using this

theorem length_insertByName (i : Item) (l : List Item) :
    (insertByName i l).length = l.length + 1 := by
  induction l with
  | nil => rfl
  | cons j js ih =>
      simp only [insertByName]
      split <;> simp [ih]

theorem mem_insertByName (a i : Item) (l : List Item) :
    a ∈ insertByName i l ↔ a = i ∨ a ∈ l := by
  induction l with
  | nil => simp [insertByName]
  | cons j js ih =>
      simp only [insertByName]
      split
      · simp [ih]
        tauto
      · simp [List.mem_cons]

theorem length_sortByName (l : List Item) :
    (sortByName l).length = l.length := by
  induction l with
  | nil => rfl
  | cons i is ih =>
      show (insertByName i (sortByName is)).length = is.length + 1
      rw [length_insertByName, ih]

theorem mem_sortByName (a : Item) (l : List Item) :
    a ∈ sortByName l ↔ a ∈ l := by
  induction l with
  | nil => simp [sortByName]
  | cons i is ih =>
      show a ∈ insertByName i (sortByName is) ↔ _
      rw [mem_insertByName]
      simp [ih]

/-! Concrete databases used by the witnesses and counterexamples. -/

/-- The freshly initialised database: three empty tables. -/
def emptyDB : DB :=
  { items := [], parties := [], transactions := [],
    nextItemId := 1, nextPartyId := 1, nextTxnId := 1 }

/-- A sample active item. -/
def screenItem : Item :=
  { id := 1, name := "iPhone 11 Screen", category := some "Screen",
    brand := some "Apple", unit := "pcs", cost_price := 100,
    sale_price := 150, active := 1, notes := none }

/-- A purchase of 10 units of item 1. -/
def inTxn10 : Txn :=
  { id := 1, item_id := 1, txn_type := "IN", qty := 10,
    unit_price := some 100, party_id := none, ref_no := none,
    txn_date := "2024-01-02", remarks := none,
    created_at := "2024-01-02 09:00:00" }

/-- A sale of 3 units of item 1, recorded after the purchase. -/
def outTxn3 : Txn :=
  { id := 2, item_id := 1, txn_type := "OUT", qty := 3,
    unit_price := some 150, party_id := none, ref_no := none,
    txn_date := "2024-01-03", remarks := none,
    created_at := "2024-01-03 09:00:00" }

/-- One item with an IN of 10 and an OUT of 3: stock 7. -/
def scenarioDB : DB :=
  { items := [screenItem], parties := [], transactions := [inTxn10, outTxn3],
    nextItemId := 2, nextPartyId := 1, nextTxnId := 3 }

/-- An active item with no movements. -/
def chargerItem : Item :=
  { id := 2, name := "Charger", category := some "Charger", brand := none,
    unit := "pcs", cost_price := 20, sale_price := 35, active := 1,
    notes := none }

/-- A database whose one active item has no transactions. -/
def noMoveDB : DB :=
  { items := [chargerItem], parties := [], transactions := [],
    nextItemId := 3, nextPartyId := 1, nextTxnId := 1 }

/-- A soft-deleted item. -/
def inactiveItem : Item :=
  { id := 3, name := "Old Cable", category := none, brand := none,
    unit := "pcs", cost_price := 5, sale_price := 8, active := 0,
    notes := none }

/-- A database with no active item (its only item is inactive). -/
def inactiveDB : DB :=
  { items := [inactiveItem], parties := [], transactions := [],
    nextItemId := 4, nextPartyId := 1, nextTxnId := 1 }

/-! Claims. -/

/-- Claim C1: for every active item, the Compute Stock Position output
contains the row of that item, its stock_qty is the spec's signed sum
Σ(IN.qty) − Σ(OUT.qty) + Σ(ADJUST.qty) over the item's transactions,
and its stock_value_cost is that quantity times the item's cost price
rounded to two decimals. -/
theorem inventory_stock_position_correct (db : DB) (i : Item)
    (hmem : i ∈ db.items) (hact : i.active = 1) :
    ∃ r ∈ (get_inventory_df db).rows,
      r.id = i.id ∧
      r.stock_qty = specStockQty db i.id ∧
      r.stock_value_cost = round2 (specStockQty db i.id * i.cost_price) := by
  have hrows : (get_inventory_df db).rows
      = (sortByName (activeItems db)).map (mkInvRow db) := rfl
  refine ⟨mkInvRow db i, ?_, rfl, ?_, ?_⟩
  · rw [hrows]
    exact List.mem_map_of_mem _ ((mem_sortByName _ _).mpr
      (List.mem_filter.mpr ⟨hmem, by simp [hact]⟩))
  · exact sqlStockQty_eq_spec db i.id
  · show round2 (sqlStockQty db i.id * i.cost_price) = _
    rw [sqlStockQty_eq_spec]

/-- Witness for C1 on the concrete two-movement database: stock of the
screen item is 10 − 3 = 7 and its value 700. -/
theorem inventory_stock_position_correct_witness :
    (screenItem ∈ scenarioDB.items ∧ screenItem.active = 1) ∧
    (∃ r ∈ (get_inventory_df scenarioDB).rows,
      r.id = screenItem.id ∧
      r.stock_qty = specStockQty scenarioDB screenItem.id ∧
      r.stock_value_cost
        = round2 (specStockQty scenarioDB screenItem.id
            * screenItem.cost_price)) ∧
    specStockQty scenarioDB screenItem.id = 7 :=
  ⟨⟨by simp [scenarioDB], rfl⟩,
   inventory_stock_position_correct scenarioDB screenItem
     (by simp [scenarioDB]) rfl,
   by
     simp only [specStockQty, sumQty, txnsFor, scenarioDB, screenItem,
       inTxn10, outTxn3, List.filter_cons, List.filter_nil, beq_iff_eq,
       String.reduceEq, Nat.reduceBEq, if_true, if_false, reduceIte,
       List.map_cons, List.map_nil, List.sum_cons, List.sum_nil]
     norm_num⟩

/-- Claim C6: an active item with no recorded movements still appears
in the Compute Stock Position output, with stock_qty 0 and
stock_value_cost 0. -/
theorem inventory_no_movements_zero (db : DB) (i : Item)
    (hmem : i ∈ db.items) (hact : i.active = 1)
    (hno : txnsFor db i.id = []) :
    ∃ r ∈ (get_inventory_df db).rows,
      r.id = i.id ∧ r.stock_qty = 0 ∧ r.stock_value_cost = 0 := by
  have hrows : (get_inventory_df db).rows
      = (sortByName (activeItems db)).map (mkInvRow db) := rfl
  have hsql : sqlStockQty db i.id = 0 := by
    simp [sqlStockQty, leftJoinTxns, hno, caseSigned]
  refine ⟨mkInvRow db i, ?_, rfl, hsql, ?_⟩
  · rw [hrows]
    exact List.mem_map_of_mem _ ((mem_sortByName _ _).mpr
      (List.mem_filter.mpr ⟨hmem, by simp [hact]⟩))
  · show round2 (sqlStockQty db i.id * i.cost_price) = 0
    rw [hsql]
    simp [round2]

/-- Witness for C6 on the concrete movement-free database. -/
theorem inventory_no_movements_zero_witness :
    (chargerItem ∈ noMoveDB.items ∧ chargerItem.active = 1 ∧
      txnsFor noMoveDB chargerItem.id = []) ∧
    ∃ r ∈ (get_inventory_df noMoveDB).rows,
      r.id = chargerItem.id ∧ r.stock_qty = 0 ∧ r.stock_value_cost = 0 :=
  ⟨⟨by simp [noMoveDB], rfl, rfl⟩,
   inventory_no_movements_zero noMoveDB chargerItem
     (by simp [noMoveDB]) rfl rfl⟩

/-- Claim C10: with no active item, get_inventory_df returns an empty
table whose column set is the base SELECT list only — the
stock_value_cost column is absent. -/
theorem inventory_empty_no_value_column (db : DB)
    (h : activeItems db = []) :
    (get_inventory_df db).rows = [] ∧
    (get_inventory_df db).columns = invBaseColumns ∧
    "stock_value_cost" ∉ (get_inventory_df db).columns := by
  have hrows : (get_inventory_df db).rows = [] := by
    show (sortByName (activeItems db)).map (mkInvRow db) = []
    rw [h]
    rfl
  have hcols : (get_inventory_df db).columns = invBaseColumns := by
    show (if ((sortByName (activeItems db)).map (mkInvRow db)).isEmpty
        then invBaseColumns else invBaseColumns ++ ["stock_value_cost"])
      = invBaseColumns
    rw [h]
    rfl
  exact ⟨hrows, hcols, by rw [hcols]; decide⟩

/-- Witness for C10 on a database whose only item is inactive. -/
theorem inventory_empty_no_value_column_witness :
    activeItems inactiveDB = [] ∧
    ((get_inventory_df inactiveDB).rows = [] ∧
     (get_inventory_df inactiveDB).columns = invBaseColumns ∧
     "stock_value_cost" ∉ (get_inventory_df inactiveDB).columns) :=
  ⟨by decide, inventory_empty_no_value_column inactiveDB (by decide)⟩

/-- Claim C4 counterexample: on a database with one active item the
exported header is the full SELECT list, which begins with the id
column, so it is not exactly the eight displayed columns the claim
names. -/
theorem export_header_includes_id_cex :
    "id" ∈ (get_inventory_df scenarioDB).columns ∧
    (get_inventory_df scenarioDB).columns
      ≠ ["name", "category", "brand", "unit", "cost_price", "sale_price",
         "stock_qty", "stock_value_cost"] := by
  have hc : (get_inventory_df scenarioDB).columns
      = ["id", "name", "category", "brand", "unit", "cost_price",
         "sale_price", "stock_qty", "stock_value_cost"] := rfl
  rw [hc]
  exact ⟨by decide, by decide⟩

/-- Claim C4 as amended: whenever at least one active item exists (the
only case in which the export button is rendered), the CSV header rows
are the nine columns id, name, category, brand, unit, cost_price,
sale_price, stock_qty, stock_value_cost, and there is one data row per
active item. -/
theorem export_header_and_row_count (db : DB)
    (h : activeItems db ≠ []) :
    (get_inventory_df db).columns
      = ["id", "name", "category", "brand", "unit", "cost_price",
         "sale_price", "stock_qty", "stock_value_cost"] ∧
    (get_inventory_df db).rows.length = (activeItems db).length := by
  have hlen : (get_inventory_df db).rows.length = (activeItems db).length := by
    show ((sortByName (activeItems db)).map (mkInvRow db)).length = _
    rw [List.length_map, length_sortByName]
  have hne : (get_inventory_df db).rows.isEmpty = false := by
    cases hr : (get_inventory_df db).rows with
    | nil =>
        exfalso
        apply h
        apply List.length_eq_zero.mp
        rw [← hlen, hr]
        rfl
    | cons x xs => rfl
  have hc : (get_inventory_df db).columns
      = if (get_inventory_df db).rows.isEmpty then invBaseColumns
        else invBaseColumns ++ ["stock_value_cost"] := rfl
  rw [hc, hne]
  exact ⟨rfl, hlen⟩

/-- Witness for the amended C4 on the concrete one-item database. -/
theorem export_header_and_row_count_witness :
    activeItems scenarioDB ≠ [] ∧
    ((get_inventory_df scenarioDB).columns
      = ["id", "name", "category", "brand", "unit", "cost_price",
         "sale_price", "stock_qty", "stock_value_cost"] ∧
     (get_inventory_df scenarioDB).rows.length
       = (activeItems scenarioDB).length) :=
  ⟨by decide, export_header_and_row_count scenarioDB (by decide)⟩

/-- Claim C2: record_txn with qty ≤ 0 raises the ValueError before
touching the store; the database, and hence every item's computed
stock position, is unchanged. -/
theorem record_txn_rejects_nonpositive (db : DB) (item_id : Nat)
    (txn_type : String) (qty : ℚ) (unit_price : Option ℚ)
    (party_id : Option Nat) (ref_no : Option String)
    (txn_date : Option String) (remarks : Option String) (today now : String)
    (h : qty ≤ 0) :
    record_txn db item_id txn_type qty unit_price party_id ref_no txn_date
        remarks today now
      = Except.error (TxnError.validationError "Qty must be > 0") ∧
    record_txn_state db item_id txn_type qty unit_price party_id ref_no
        txn_date remarks today now = db ∧
    get_inventory_df (record_txn_state db item_id txn_type qty unit_price
        party_id ref_no txn_date remarks today now) = get_inventory_df db := by
  have h1 : record_txn db item_id txn_type qty unit_price party_id ref_no
      txn_date remarks today now
      = Except.error (TxnError.validationError "Qty must be > 0") := by
    simp [record_txn, h]
  have h2 : record_txn_state db item_id txn_type qty unit_price party_id
      ref_no txn_date remarks today now = db := by
    simp [record_txn_state, h1]
  exact ⟨h1, h2, by rw [h2]⟩

/-- Witness for C2: appending qty = 0 to the empty database. -/
theorem record_txn_rejects_nonpositive_witness :
    ((0 : ℚ) ≤ 0) ∧
    (record_txn emptyDB 1 "IN" 0 none none none none none "2024-01-01"
        "2024-01-01 00:00:00"
      = Except.error (TxnError.validationError "Qty must be > 0") ∧
     record_txn_state emptyDB 1 "IN" 0 none none none none none "2024-01-01"
        "2024-01-01 00:00:00" = emptyDB ∧
     get_inventory_df (record_txn_state emptyDB 1 "IN" 0 none none none none
        none "2024-01-01" "2024-01-01 00:00:00")
       = get_inventory_df emptyDB) :=
  ⟨le_refl 0,
   record_txn_rejects_nonpositive emptyDB 1 "IN" 0 none none none none none
     "2024-01-01" "2024-01-01 00:00:00" (le_refl 0)⟩

/-- Claim C9: record_txn performs no validation of txn_type; with a
positive qty and a type outside IN/OUT/ADJUST the append reaches the
store and is rejected by its CHECK constraint (not by the ValueError
path), and the transaction log is unchanged. -/
theorem record_txn_invalid_type_store_check (db : DB) (item_id : Nat)
    (txn_type : String) (qty : ℚ) (unit_price : Option ℚ)
    (party_id : Option Nat) (ref_no : Option String)
    (txn_date : Option String) (remarks : Option String) (today now : String)
    (hq : 0 < qty) (hin : txn_type ≠ "IN") (hout : txn_type ≠ "OUT")
    (hadj : txn_type ≠ "ADJUST") :
    record_txn db item_id txn_type qty unit_price party_id ref_no txn_date
        remarks today now = Except.error TxnError.checkViolation ∧
    record_txn_state db item_id txn_type qty unit_price party_id ref_no
        txn_date remarks today now = db ∧
    (record_txn_state db item_id txn_type qty unit_price party_id ref_no
        txn_date remarks today now).transactions = db.transactions := by
  have h1 : record_txn db item_id txn_type qty unit_price party_id ref_no
      txn_date remarks today now = Except.error TxnError.checkViolation := by
    rw [record_txn, if_neg (not_le.mpr hq)]
    simp [insertTxnStore, hin, hout, hadj]
  have h2 : record_txn_state db item_id txn_type qty unit_price party_id
      ref_no txn_date remarks today now = db := by
    simp [record_txn_state, h1]
  exact ⟨h1, h2, by rw [h2]⟩

/-- Witness for C9: a RETURN movement with qty = 5. -/
theorem record_txn_invalid_type_store_check_witness :
    ((0 : ℚ) < 5 ∧ ("RETURN" : String) ≠ "IN" ∧ ("RETURN" : String) ≠ "OUT" ∧
      ("RETURN" : String) ≠ "ADJUST") ∧
    (record_txn scenarioDB 1 "RETURN" 5 none none none none none "2024-01-04"
        "2024-01-04 00:00:00" = Except.error TxnError.checkViolation ∧
     record_txn_state scenarioDB 1 "RETURN" 5 none none none none none
        "2024-01-04" "2024-01-04 00:00:00" = scenarioDB ∧
     (record_txn_state scenarioDB 1 "RETURN" 5 none none none none none
        "2024-01-04" "2024-01-04 00:00:00").transactions
       = scenarioDB.transactions) :=
  ⟨⟨by norm_num, by decide, by decide, by decide⟩,
   record_txn_invalid_type_store_check scenarioDB 1 "RETURN" 5 none none none
     none none "2024-01-04" "2024-01-04 00:00:00" (by norm_num) (by decide)
     (by decide) (by decide)⟩

/-- No two parties of one type share a name. -/
def partyKeyUnique (ps : List Party) : Prop :=
  ps.Pairwise (fun p q => ¬(p.type = q.type ∧ p.name = q.name))

/-- The party row upsert_party inserts when no match exists. -/
def newParty (pid : Nat) (party_type s : String)
    (ph ad : Option String) : Party :=
  { id := pid, type := party_type, name := s, phone := ph, address := ad }

theorem upsert_party_found (db : DB) (party_type nm : String)
    (ph ad : Option String) (p : Party) (h : pyStrip nm ≠ "")
    (hfind : db.parties.find?
        (fun q => q.type == party_type && q.name == pyStrip nm) = some p) :
    upsert_party db party_type nm ph ad = (some p.id, db) := by
  simp [upsert_party, h, hfind]

theorem upsert_party_not_found (db : DB) (party_type nm : String)
    (ph ad : Option String) (h : pyStrip nm ≠ "")
    (hfind : db.parties.find?
        (fun q => q.type == party_type && q.name == pyStrip nm) = none) :
    upsert_party db party_type nm ph ad
      = (some db.nextPartyId,
         { db with
             parties := db.parties ++
               [newParty db.nextPartyId party_type (pyStrip nm) ph ad],
             nextPartyId := db.nextPartyId + 1 }) := by
  simp [upsert_party, h, hfind, newParty]

theorem find?_party_append_self (ps : List Party) (party_type s : String)
    (ph ad : Option String) (x : Nat)
    (hfind : ps.find?
        (fun q => q.type == party_type && q.name == s) = none) :
    (ps ++ [newParty x party_type s ph ad]).find?
        (fun q => q.type == party_type && q.name == s)
      = some (newParty x party_type s ph ad) := by
  rw [List.find?_append, hfind]
  simp [newParty]

/-- Claim C5: find-or-create of a party is idempotent — with the same
type and (trimmed) non-blank name, the second call returns the same
identity and leaves the database exactly as the first call left it (so
no duplicate row is created and the phone/address stored by the first
call survive); moreover one call preserves the invariant that no two
parties of one type share a name. -/
theorem upsert_party_idempotent (db : DB) (party_type nm : String)
    (ph1 ad1 ph2 ad2 : Option String) (h : pyStrip nm ≠ "") :
    (upsert_party (upsert_party db party_type nm ph1 ad1).2 party_type nm
        ph2 ad2).1 = (upsert_party db party_type nm ph1 ad1).1 ∧
    (upsert_party (upsert_party db party_type nm ph1 ad1).2 party_type nm
        ph2 ad2).2 = (upsert_party db party_type nm ph1 ad1).2 ∧
    (partyKeyUnique db.parties →
      partyKeyUnique (upsert_party db party_type nm ph1 ad1).2.parties) := by
  cases hfind : db.parties.find?
      (fun q => q.type == party_type && q.name == pyStrip nm) with
  | some p =>
      have e1 := upsert_party_found db party_type nm ph1 ad1 p h hfind
      have e2 := upsert_party_found db party_type nm ph2 ad2 p h hfind
      rw [e1, e2]
      exact ⟨rfl, rfl, fun hu => hu⟩
  | none =>
      have e1 := upsert_party_not_found db party_type nm ph1 ad1 h hfind
      have e2 := find?_party_append_self db.parties party_type (pyStrip nm)
        ph1 ad1 db.nextPartyId hfind
      have r2 : upsert_party (upsert_party db party_type nm ph1 ad1).2
          party_type nm ph2 ad2
          = (some (newParty db.nextPartyId party_type (pyStrip nm)
              ph1 ad1).id,
             (upsert_party db party_type nm ph1 ad1).2) := by
        apply upsert_party_found _ _ _ _ _ _ h
        rw [e1]
        exact e2
      refine ⟨?_, ?_, ?_⟩
      · rw [r2, e1]
        rfl
      · rw [r2]
      · intro hu
        rw [e1]
        show partyKeyUnique (db.parties ++ [_])
        rw [partyKeyUnique, List.pairwise_append]
        refine ⟨hu, List.pairwise_singleton _ _, ?_⟩
        intro a ha b hb
        rw [List.mem_singleton] at hb
        subst hb
        have hnone := List.find?_eq_none.mp hfind a ha
        simp only [Bool.and_eq_true, beq_iff_eq, not_and] at hnone
        intro hcontra
        exact hnone hcontra.1 hcontra.2

/-- Witness for C5: creating then re-finding a supplier named
" Ali " (trimming to "Ali") in the empty database. -/
theorem upsert_party_idempotent_witness :
    pyStrip " Ali " ≠ "" ∧
    ((upsert_party (upsert_party emptyDB "supplier" " Ali "
          (some "111") (some "A St")).2 "supplier" " Ali "
          (some "222") (some "B St")).1
        = (upsert_party emptyDB "supplier" " Ali "
            (some "111") (some "A St")).1 ∧
     (upsert_party (upsert_party emptyDB "supplier" " Ali "
          (some "111") (some "A St")).2 "supplier" " Ali "
          (some "222") (some "B St")).2
        = (upsert_party emptyDB "supplier" " Ali "
            (some "111") (some "A St")).2 ∧
     (partyKeyUnique emptyDB.parties →
       partyKeyUnique (upsert_party emptyDB "supplier" " Ali "
           (some "111") (some "A St")).2.parties)) :=
  ⟨by decide,
   upsert_party_idempotent emptyDB "supplier" " Ali "
     (some "111") (some "A St") (some "222") (some "B St") (by decide)⟩

/-- Claim C7: a Stock OUT submission whose qty exceeds the computed
available stock is blocked with the error banner; the database is
returned untouched, so no movement is appended and the item's stock is
unchanged. -/
theorem stock_out_blocks_insufficient (db : DB) (item_id : Nat)
    (qty unit_price : ℚ) (customer : String) (ref_no : Option String)
    (txn_date : String) (remarks : Option String) (now : String)
    (h : curr_stock db item_id < qty) :
    stock_out_submit db item_id qty unit_price customer ref_no txn_date
        remarks now
      = (SubmitOutcome.uiError "Not enough stock available.", db) ∧
    (stock_out_submit db item_id qty unit_price customer ref_no txn_date
        remarks now).2.transactions = db.transactions ∧
    curr_stock (stock_out_submit db item_id qty unit_price customer ref_no
        txn_date remarks now).2 item_id = curr_stock db item_id := by
  have h1 : stock_out_submit db item_id qty unit_price customer ref_no
      txn_date remarks now
      = (SubmitOutcome.uiError "Not enough stock available.", db) := by
    simp [stock_out_submit, gt_iff_lt, h]
  exact ⟨h1, by rw [h1], by rw [h1]⟩

/-- A purchase of 9 units of item 1 (the spec scenario's stock). -/
def inTxn9 : Txn :=
  { id := 1, item_id := 1, txn_type := "IN", qty := 9,
    unit_price := some 100, party_id := none, ref_no := none,
    txn_date := "2024-01-02", remarks := none,
    created_at := "2024-01-02 09:00:00" }

/-- One item whose only movement is an IN of 9: stock 9. -/
def stockNineDB : DB :=
  { items := [screenItem], parties := [], transactions := [inTxn9],
    nextItemId := 2, nextPartyId := 1, nextTxnId := 2 }

theorem curr_stock_stockNineDB : curr_stock stockNineDB 1 = 9 := by
  simp [curr_stock, get_inventory_df, activeItems, sortByName, insertByName,
    mkInvRow, sqlStockQty, leftJoinTxns, txnsFor, caseSigned, stockNineDB,
    screenItem, inTxn9, List.filter_cons, List.find?]

/-- Witness for C7: the spec scenario — OUT qty 50 against available
stock 9 is blocked and the stock stays 9. -/
theorem stock_out_blocks_insufficient_witness :
    curr_stock stockNineDB 1 < 50 ∧
    (stock_out_submit stockNineDB 1 50 150 "" none "2024-01-05" none
        "2024-01-05 00:00:00"
      = (SubmitOutcome.uiError "Not enough stock available.", stockNineDB) ∧
     (stock_out_submit stockNineDB 1 50 150 "" none "2024-01-05" none
        "2024-01-05 00:00:00").2.transactions = stockNineDB.transactions ∧
     curr_stock (stock_out_submit stockNineDB 1 50 150 "" none "2024-01-05"
        none "2024-01-05 00:00:00").2 1 = curr_stock stockNineDB 1) := by
  have hlt : curr_stock stockNineDB 1 < 50 := by
    rw [curr_stock_stockNineDB]
    norm_num
  exact ⟨hlt, stock_out_blocks_insufficient stockNineDB 1 50 150 "" none
    "2024-01-05" none "2024-01-05 00:00:00" hlt⟩

/-- Claim C8: update_item_basic sets exactly the provided price fields
of the item with the given id (COALESCE keeps an omitted one), touches
no other field of that item, no other item, and no other table. -/
theorem update_item_basic_partial (db : DB) (item_id : Nat)
    (c s : Option ℚ) :
    (update_item_basic db item_id c s).parties = db.parties ∧
    (update_item_basic db item_id c s).transactions = db.transactions ∧
    List.Forall₂ (fun i i2 =>
      i2.id = i.id ∧ i2.name = i.name ∧ i2.category = i.category ∧
      i2.brand = i.brand ∧ i2.unit = i.unit ∧ i2.active = i.active ∧
      i2.notes = i.notes ∧
      (i.id = item_id → i2.cost_price = c.getD i.cost_price ∧
        i2.sale_price = s.getD i.sale_price) ∧
      (i.id ≠ item_id → i2 = i))
      db.items (update_item_basic db item_id c s).items := by
  refine ⟨rfl, rfl, ?_⟩
  show List.Forall₂ _ db.items (db.items.map _)
  rw [List.forall₂_map_right_iff, List.forall₂_same]
  intro i hi
  by_cases hid : i.id = item_id
  · simp [hid]
  · simp [hid]

/-- Claim C3 as amended: every possible result of the
recent-transactions query has at most 200 rows, exactly 200 as soon as
the (item-joined) log holds 201 or more rows — in particular as soon
as 201 transactions exist and every transaction's item exists — and is
ordered by created_at descending. The relative order of rows with
equal created_at is not fixed by the query. -/
theorem recent_tx_bounded_and_desc (db : DB) (out : List Txn)
    (h : recentTxAdmissible db out) :
    out.length ≤ 200 ∧
    ((∀ t ∈ db.transactions,
        db.items.any (fun i => i.id == t.item_id) = true) →
      201 ≤ db.transactions.length → out.length = 200) ∧
    createdDescOrdered out := by
  obtain ⟨s, hperm, hsort, hout⟩ := h
  subst hout
  refine ⟨List.length_take_le 200 s, ?_, ?_⟩
  · intro hfk hlen
    have hj : joinedTxns db = db.transactions :=
      List.filter_eq_self.mpr hfk
    have hslen : s.length = db.transactions.length := by
      rw [hperm.length_eq, hj]
    rw [List.length_take, hslen]
    omega
  · exact List.Pairwise.sublist (List.take_sublist _ _) hsort

/-- Witness for the amended C3: the two-movement database with the
newest-created transaction first. -/
theorem recent_tx_bounded_and_desc_witness :
    recentTxAdmissible scenarioDB [outTxn3, inTxn10] ∧
    ([outTxn3, inTxn10].length ≤ 200 ∧
     ((∀ t ∈ scenarioDB.transactions,
         scenarioDB.items.any (fun i => i.id == t.item_id) = true) →
       201 ≤ scenarioDB.transactions.length →
       [outTxn3, inTxn10].length = 200) ∧
     createdDescOrdered [outTxn3, inTxn10]) := by
  have hj : joinedTxns scenarioDB = [inTxn10, outTxn3] := rfl
  have hsort : createdDescOrdered [outTxn3, inTxn10] := by
    rw [createdDescOrdered, List.pairwise_cons]
    refine ⟨?_, List.pairwise_singleton _ _⟩
    intro b hb
    rw [List.mem_singleton] at hb
    subst hb
    show inTxn10.created_at ≤ outTxn3.created_at
    simp [inTxn10, outTxn3]
    decide
  have hadm : recentTxAdmissible scenarioDB [outTxn3, inTxn10] := by
    refine ⟨[outTxn3, inTxn10], ?_, hsort, rfl⟩
    rw [hj]
    exact List.Perm.swap inTxn10 outTxn3 []
  exact ⟨hadm, recent_tx_bounded_and_desc scenarioDB _ hadm⟩

/-- A positive adjustment, first of two appended within one second. -/
def adjTxnA : Txn :=
  { id := 1, item_id := 1, txn_type := "ADJUST", qty := 1,
    unit_price := none, party_id := none, ref_no := none,
    txn_date := "2024-01-05", remarks := none,
    created_at := "2024-01-05 12:00:00" }

/-- A second adjustment with the same created_at timestamp. -/
def adjTxnB : Txn :=
  { id := 2, item_id := 1, txn_type := "ADJUST", qty := 2,
    unit_price := none, party_id := none, ref_no := none,
    txn_date := "2024-01-05", remarks := none,
    created_at := "2024-01-05 12:00:00" }

/-- Two transactions created in the same second: their created_at
TEXT values collide. -/
def tieDB : DB :=
  { items := [screenItem], parties := [], transactions := [adjTxnA, adjTxnB],
    nextItemId := 2, nextPartyId := 1, nextTxnId := 3 }

/-- Claim C3 counterexample: with two transactions sharing a
created_at value, the listing that returns them in id-descending order
is an admissible result of ORDER BY created_at DESC LIMIT 200 (the
query fixes no tie order), yet it violates the claimed id-ascending
tie-break. -/
theorem recent_tx_tiebreak_cex :
    recentTxAdmissible tieDB [adjTxnB, adjTxnA] ∧
    ¬ claimedRecentOrder [adjTxnB, adjTxnA] := by
  constructor
  · have hj : joinedTxns tieDB = [adjTxnA, adjTxnB] := rfl
    have hsort : createdDescOrdered [adjTxnB, adjTxnA] := by
      rw [createdDescOrdered, List.pairwise_cons]
      refine ⟨?_, List.pairwise_singleton _ _⟩
      intro b hb
      rw [List.mem_singleton] at hb
      subst hb
      show adjTxnA.created_at ≤ adjTxnB.created_at
      exact le_refl _
    refine ⟨[adjTxnB, adjTxnA], ?_, hsort, rfl⟩
    rw [hj]
    exact List.Perm.swap adjTxnA adjTxnB []
  · intro hcl
    have hrel := (List.pairwise_cons.mp hcl).1 adjTxnA
      (List.mem_singleton.mpr rfl)
    cases hrel with
    | inl hlt =>
        revert hlt
        show ¬ adjTxnA.created_at < adjTxnB.created_at
        simp [adjTxnA, adjTxnB]
    | inr hand =>
        have h2 := hand.2
        revert h2
        show ¬ adjTxnB.id < adjTxnA.id
        decide

end AliStock
